import Mathlib

/-!
Verification of `mongobackuptools/backups.py` (phelipebf/mongobackup).

This file shallowly embeds the backup/restore orchestrator of `backups.py`:
the timestamp codec (`time_string`, `get_backup_file_time_tag` built on
Python 2's `datetime.strftime`/`datetime.strptime` with the fixed pattern
`"_%Y-%m-%d_%H-%M"`), the retention purger (`purge_old_files`), the two
command builders (`mongodump`, `mongorestore`) and the two orchestrators
(`backup`, `restore`).

Filesystem and process side effects are modelled as explicit traces of
`Effect` values; `path.exists` and `os.listdir` are oracles passed in as
functions.  Python exceptions become an `Option` error component carried
next to the trace of effects performed before the failure.

`datetime.strptime` is modelled faithfully to CPython's `_strptime` for
this one format string: the compiled regex is
`_(\d\d\d\d)-(1[0-2]|0[1-9]|[1-9])-(3[01]|[12]\d|0[1-9]|[1-9])_(2[0-3]|[0-1]\d|\d)-([0-5]\d|\d)`
matched with `re.match` (leftmost, alternatives tried in order).  For this
particular pattern first-alternative matching never needs backtracking into
an earlier group: whenever a longer alternative of a group matches, every
shorter alternative is followed by a character that the next pattern
element rejects as well, so the sequential parser below is extensionally
the regex match.  The three failure modes keep CPython's order and message
texts: no regex match ("time data %r does not match format %r"), trailing
input ("unconverted data remains: %s"), and invalid calendar data from the
`datetime_date` constructor.
-/

/-- A Python `datetime` truncated to minute resolution (the only resolution
that survives the `"_%Y-%m-%d_%H-%M"` codec; `purge_old_files` cutoffs are
also built with `second=0, microsecond=0`). -/
structure DateTime where
  year : Nat
  month : Nat
  day : Nat
  hour : Nat
  minute : Nat
deriving DecidableEq, Repr

/-- Python `datetime` comparison, lexicographic on the components. -/
def dtLt (a b : DateTime) : Bool :=
  if a.year ≠ b.year then decide (a.year < b.year)
  else if a.month ≠ b.month then decide (a.month < b.month)
  else if a.day ≠ b.day then decide (a.day < b.day)
  else if a.hour ≠ b.hour then decide (a.hour < b.hour)
  else decide (a.minute < b.minute)

/-- Gregorian leap-year test, as in Python's `calendar`/`datetime`. -/
def isLeapYear (y : Nat) : Bool := y % 4 = 0 ∧ (y % 100 ≠ 0 ∨ y % 400 = 0)

/-- Days in a month of a given year (Python `datetime` calendar). -/
def daysInMonth (y m : Nat) : Nat :=
  if m = 2 then (if isLeapYear y then 29 else 28)
  else if m = 4 ∨ m = 6 ∨ m = 9 ∨ m = 11 then 30
  else 31

/-- `DATETIME_FORMAT = "_%Y-%m-%d_%H-%M"` (backups.py line 35). -/
def DATETIME_FORMAT : String := "_%Y-%m-%d_%H-%M"

/-- Two-digit zero-padded rendering, as `strftime` `%m`/`%d`/`%H`/`%M`. -/
def pad2 (n : Nat) : List Char := [Nat.digitChar (n / 10 % 10), Nat.digitChar (n % 10)]

/-- Four-digit rendering, as `strftime` `%Y` on the years Python 2 accepts
(`strftime` requires `year >= 1900`, where `%Y` is always four digits). -/
def pad4 (n : Nat) : List Char :=
  [Nat.digitChar (n / 1000 % 10), Nat.digitChar (n / 100 % 10),
   Nat.digitChar (n / 10 % 10), Nat.digitChar (n % 10)]

/-- The characters of `t.strftime("_%Y-%m-%d_%H-%M")`. -/
def timeTagChars (t : DateTime) : List Char :=
  '_' :: (pad4 t.year ++ '-' :: (pad2 t.month ++ '-' :: (pad2 t.day ++
    '_' :: (pad2 t.hour ++ '-' :: pad2 t.minute))))

/-- `time_string()` (backups.py lines 191-193): renders a datetime with
`DATETIME_FORMAT`.  The current UTC instant is passed in explicitly. -/
def time_string (now : DateTime) : String := String.mk (timeTagChars now)

/-- The failure modes of `datetime.strptime` on this format, with the data
needed to rebuild the `ValueError` message that `purge_old_files` sniffs. -/
inductive ParseError where
  /-- the regex did not match: `"time data %r does not match format %r"`. -/
  | mismatch (data : List Char)
  /-- regex matched a proper prefix: `"unconverted data remains: %s"`. -/
  | unconverted (leftover : List Char)
  /-- `datetime.date` rejected the day: `"day is out of range for month"`. -/
  | dayOutOfRange
  /-- `datetime.date` rejected year 0: `"year is out of range"`. -/
  | yearOutOfRange
deriving DecidableEq, Repr

/-- The text of the `ValueError` raised by `strptime`, as a char list.
For `mismatch` the exact `%r` escaping of `data` is irrelevant to this
development: the only consumer checks membership of the phrase
`"does not match format"`, which sits in the literal tail either way. -/
def msgOf : ParseError → List Char
  | .mismatch data =>
      "time data \x27".data ++ data ++ "\x27 does not match format \x27_%Y-%m-%d_%H-%M\x27".data
  | .unconverted leftover => "unconverted data remains: ".data ++ leftover
  | .dayOutOfRange => "day is out of range for month".data
  | .yearOutOfRange => "year is out of range".data

/-- The phrase `purge_old_files` looks for in `e.message` (line 214). -/
def formatPhrase : List Char := "does not match format".data

/-- `"does not match format" in e.message`, the exception sniff of
backups.py line 214. -/
def sniffsAsMalformed (e : ParseError) : Bool := decide (formatPhrase <:+: msgOf e)

/-- `\d` of the `_strptime` regex: a decimal digit and its value. -/
def digitVal (c : Char) : Option Nat :=
  if c.isDigit then some (c.toNat - 48) else none

/-- Literal character of the format pattern. -/
def parseLit (c : Char) : List Char → Option (List Char)
  | [] => none
  | x :: rest => if x = c then some rest else none

/-- `%Y` is compiled to `\d\d\d\d`: exactly four digits. -/
def parseY : List Char → Option (Nat × List Char)
  | a :: b :: c :: d :: rest =>
    match digitVal a, digitVal b, digitVal c, digitVal d with
    | some x, some y, some z, some w => some (1000 * x + 100 * y + 10 * z + w, rest)
    | _, _, _, _ => none
  | _ => none

/-- `%m` is compiled to `1[0-2]|0[1-9]|[1-9]`, alternatives in order. -/
def parseMonth : List Char → Option (Nat × List Char)
  | c1 :: c2 :: rest =>
    if c1 = '1' ∧ (c2 = '0' ∨ c2 = '1' ∨ c2 = '2') then some (10 + (c2.toNat - 48), rest)
    else if c1 = '0' ∧ c2.isDigit ∧ c2 ≠ '0' then some (c2.toNat - 48, rest)
    else if c1.isDigit ∧ c1 ≠ '0' then some (c1.toNat - 48, c2 :: rest)
    else none
  | [c1] => if c1.isDigit ∧ c1 ≠ '0' then some (c1.toNat - 48, []) else none
  | [] => none

/-- `%d` is compiled to `3[01]|[12]\d|0[1-9]|[1-9]`, alternatives in order. -/
def parseDay : List Char → Option (Nat × List Char)
  | c1 :: c2 :: rest =>
    if c1 = '3' ∧ (c2 = '0' ∨ c2 = '1') then some (30 + (c2.toNat - 48), rest)
    else if (c1 = '1' ∨ c1 = '2') ∧ c2.isDigit then
      some (10 * (c1.toNat - 48) + (c2.toNat - 48), rest)
    else if c1 = '0' ∧ c2.isDigit ∧ c2 ≠ '0' then some (c2.toNat - 48, rest)
    else if c1.isDigit ∧ c1 ≠ '0' then some (c1.toNat - 48, c2 :: rest)
    else none
  | [c1] => if c1.isDigit ∧ c1 ≠ '0' then some (c1.toNat - 48, []) else none
  | [] => none

/-- `%H` is compiled to `2[0-3]|[0-1]\d|\d`, alternatives in order. -/
def parseHour : List Char → Option (Nat × List Char)
  | c1 :: c2 :: rest =>
    if c1 = '2' ∧ (c2 = '0' ∨ c2 = '1' ∨ c2 = '2' ∨ c2 = '3') then
      some (20 + (c2.toNat - 48), rest)
    else if (c1 = '0' ∨ c1 = '1') ∧ c2.isDigit then
      some (10 * (c1.toNat - 48) + (c2.toNat - 48), rest)
    else if c1.isDigit then some (c1.toNat - 48, c2 :: rest)
    else none
  | [c1] => if c1.isDigit then some (c1.toNat - 48, []) else none
  | [] => none

/-- `%M` is compiled to `[0-5]\d|\d`, alternatives in order. -/
def parseMinute : List Char → Option (Nat × List Char)
  | c1 :: c2 :: rest =>
    if (c1 = '0' ∨ c1 = '1' ∨ c1 = '2' ∨ c1 = '3' ∨ c1 = '4' ∨ c1 = '5') ∧ c2.isDigit then
      some (10 * (c1.toNat - 48) + (c2.toNat - 48), rest)
    else if c1.isDigit then some (c1.toNat - 48, c2 :: rest)
    else none
  | [c1] => if c1.isDigit then some (c1.toNat - 48, []) else none
  | [] => none

/-- The whole compiled regex of `"_%Y-%m-%d_%H-%M"` run by `re.match`:
returns the five captured numbers and the unmatched remainder. -/
def parseFields (l : List Char) : Option (Nat × Nat × Nat × Nat × Nat × List Char) :=
  match parseLit '_' l with
  | none => none
  | some l1 =>
  match parseY l1 with
  | none => none
  | some (y, l2) =>
  match parseLit '-' l2 with
  | none => none
  | some l3 =>
  match parseMonth l3 with
  | none => none
  | some (m, l4) =>
  match parseLit '-' l4 with
  | none => none
  | some l5 =>
  match parseDay l5 with
  | none => none
  | some (d, l6) =>
  match parseLit '_' l6 with
  | none => none
  | some l7 =>
  match parseHour l7 with
  | none => none
  | some (h, l8) =>
  match parseLit '-' l8 with
  | none => none
  | some l9 =>
  match parseMinute l9 with
  | none => none
  | some (mi, l10) => some (y, m, d, h, mi, l10)

/-- `datetime.strptime(tag, DATETIME_FORMAT)`: regex match, then the
whole-string check, then calendar validation (CPython `_strptime` order). -/
def strptimeTag (l : List Char) : Except ParseError DateTime :=
  match parseFields l with
  | none => .error (.mismatch l)
  | some (y, m, d, h, mi, rest) =>
    if rest.isEmpty then
      if y = 0 then .error .yearOutOfRange
      else if d ≤ daysInMonth y m then .ok ⟨y, m, d, h, mi⟩
      else .error .dayOutOfRange
    else .error (.unconverted rest)

/-- `get_backup_file_time_tag` (backups.py lines 196-201): drop the first
`len(custom_prefix)` characters, keep the part before the first `.`
(`split(".", 1)[0]`), and `strptime` it.  `custom_pre` is the source's
`custom_prefix` keyword argument. -/
def get_backup_file_time_tag (file_name : String) (custom_pre : String) :
    Except ParseError DateTime :=
  let name_string := file_name.data.drop custom_pre.length
  let time_tag := name_string.takeWhile (fun c => c ≠ '.')
  strptimeTag time_tag

/-- The warning printed by `purge_old_files` (lines 215-216); it names the
scanned directory, not the file. -/
def formatWarning (directory_path : String) : String :=
  "WARNING. file(s) in " ++ directory_path ++ " do not match naming convention."

/-- Result of a `purge_old_files` scan: the paths passed to `os.remove`
(in scan order), the warnings printed, and the uncaught exception, if any
(entries after it are never examined, and its `removed`/`warnings` record
what had already happened). -/
structure PurgeOutcome where
  removed : List String
  warnings : List String
  fatal : Option ParseError
deriving DecidableEq, Repr

/-- `purge_old_files` (backups.py lines 204-220) over the `listdir`
snapshot `files`.  A parse failure whose message contains
`"does not match format"` prints a warning and continues; any other
`ValueError` propagates; a parsed tag strictly earlier than `date_time`
makes the file be removed at path `directory_path + file_name`. -/
def purge_old_files (date_time : DateTime) (directory_path : String)
    (files : List String) (custom_pre : String) : PurgeOutcome :=
  match files with
  | [] => ⟨[], [], none⟩
  | f :: rest =>
    match get_backup_file_time_tag f custom_pre with
    | .error e =>
      if sniffsAsMalformed e then
        let r := purge_old_files date_time directory_path rest custom_pre
        ⟨r.removed, formatWarning directory_path :: r.warnings, r.fatal⟩
      else ⟨[], [], some e⟩
    | .ok t =>
      let r := purge_old_files date_time directory_path rest custom_pre
      if dtLt t date_time then ⟨(directory_path ++ f) :: r.removed, r.warnings, r.fatal⟩
      else r

/-! ### Round-trip of the timestamp codec -/

/-- Calendar-valid minute-resolution instants in the domain of Python 2's
`strftime` (which requires `year >= 1900`; `%Y` is then four digits). -/
def ValidDT (t : DateTime) : Prop :=
  1900 ≤ t.year ∧ t.year ≤ 9999 ∧ 1 ≤ t.month ∧ t.month ≤ 12 ∧
  1 ≤ t.day ∧ t.day ≤ daysInMonth t.year t.month ∧ t.hour ≤ 23 ∧ t.minute ≤ 59

instance (t : DateTime) : Decidable (ValidDT t) := by unfold ValidDT; infer_instance

theorem daysInMonth_le (y m : Nat) : daysInMonth y m ≤ 31 := by
  unfold daysInMonth; split_ifs <;> omega

theorem digitVal_digitChar (k : Nat) (hk : k < 10) :
    digitVal (Nat.digitChar k) = some k := by
  interval_cases k <;> decide

theorem parseY_pad4 (y : Nat) (hy : y ≤ 9999) (rest : List Char) :
    parseY (pad4 y ++ rest) = some (y, rest) := by
  have e1 := digitVal_digitChar (y / 1000 % 10) (Nat.mod_lt _ (by omega))
  have e2 := digitVal_digitChar (y / 100 % 10) (Nat.mod_lt _ (by omega))
  have e3 := digitVal_digitChar (y / 10 % 10) (Nat.mod_lt _ (by omega))
  have e4 := digitVal_digitChar (y % 10) (Nat.mod_lt _ (by omega))
  simp only [pad4, List.cons_append, List.nil_append, parseY, e1, e2, e3, e4]
  have hsum : 1000 * (y / 1000 % 10) + 100 * (y / 100 % 10) + 10 * (y / 10 % 10) + y % 10 = y := by
    omega
  rw [hsum]

theorem parseMonth_pad2 (m : Nat) (h1 : 1 ≤ m) (h2 : m ≤ 12) (rest : List Char) :
    parseMonth (pad2 m ++ rest) = some (m, rest) := by
  interval_cases m <;> rfl

theorem parseDay_pad2 (d : Nat) (h1 : 1 ≤ d) (h2 : d ≤ 31) (rest : List Char) :
    parseDay (pad2 d ++ rest) = some (d, rest) := by
  interval_cases d <;> rfl

theorem parseHour_pad2 (h : Nat) (h2 : h ≤ 23) (rest : List Char) :
    parseHour (pad2 h ++ rest) = some (h, rest) := by
  interval_cases h <;> rfl

theorem parseMinute_pad2 (mi : Nat) (h2 : mi ≤ 59) (rest : List Char) :
    parseMinute (pad2 mi ++ rest) = some (mi, rest) := by
  interval_cases mi <;> rfl

theorem parseLit_cons (c : Char) (rest : List Char) :
    parseLit c (c :: rest) = some rest := by
  simp [parseLit]

theorem parseFields_timeTag (t : DateTime) (hv : ValidDT t) (rest : List Char) :
    parseFields (timeTagChars t ++ rest) =
      some (t.year, t.month, t.day, t.hour, t.minute, rest) := by
  obtain ⟨h1, h2, h3, h4, h5, h6, h7, h8⟩ := hv
  have hd31 : t.day ≤ 31 := le_trans h6 (daysInMonth_le t.year t.month)
  simp only [timeTagChars, List.cons_append, List.append_assoc, parseFields,
    parseLit_cons, parseY_pad4 _ h2, parseMonth_pad2 _ h3 h4, parseDay_pad2 _ h5 hd31,
    parseHour_pad2 _ h7, parseMinute_pad2 _ h8]

theorem strptimeTag_timeTag (t : DateTime) (hv : ValidDT t) :
    strptimeTag (timeTagChars t) = .ok t := by
  have hp := parseFields_timeTag t hv []
  rw [List.append_nil] at hp
  obtain ⟨h1, h2, h3, h4, h5, h6, h7, h8⟩ := hv
  simp only [strptimeTag, hp]
  rw [if_pos (by simp), if_neg (by omega), if_pos h6]

theorem takeWhile_append_of_all {p : Char → Bool} (l₁ l₂ : List Char)
    (h : ∀ x ∈ l₁, p x = true) :
    (l₁ ++ l₂).takeWhile p = l₁ ++ l₂.takeWhile p := by
  induction l₁ with
  | nil => simp
  | cons c cs ih =>
    have hc : p c = true := h c (by simp)
    simp [List.takeWhile_cons, hc, ih (fun x hx => h x (by simp [hx]))]

theorem mem_pad4 (n : Nat) (x : Char) (hx : x ∈ pad4 n) :
    ∃ k : Nat, x = Nat.digitChar (k % 10) := by
  simp only [pad4, List.mem_cons, List.not_mem_nil, or_false] at hx
  rcases hx with rfl | rfl | rfl | rfl
  · exact ⟨n / 1000, rfl⟩
  · exact ⟨n / 100, rfl⟩
  · exact ⟨n / 10, rfl⟩
  · exact ⟨n, rfl⟩

theorem mem_pad2 (n : Nat) (x : Char) (hx : x ∈ pad2 n) :
    ∃ k : Nat, x = Nat.digitChar (k % 10) := by
  simp only [pad2, List.mem_cons, List.not_mem_nil, or_false] at hx
  rcases hx with rfl | rfl
  · exact ⟨n / 10, rfl⟩
  · exact ⟨n, rfl⟩

theorem digitChar_mod_ne_dot (n : Nat) : Nat.digitChar (n % 10) ≠ '.' := by
  have h : n % 10 < 10 := Nat.mod_lt _ (by omega)
  revert h; generalize n % 10 = k; intro h
  interval_cases k <;> decide

theorem mem_timeTag_ne_dot (t : DateTime) :
    ∀ x ∈ timeTagChars t, (fun c => decide (c ≠ '.')) x = true := by
  intro x hx
  simp only [decide_eq_true_eq, ne_eq]
  simp only [timeTagChars, List.mem_cons, List.mem_append] at hx
  rcases hx with rfl | h4 | rfl | h2 | rfl | h2 | rfl | h2 | rfl | h2
  · decide
  · obtain ⟨k, rfl⟩ := mem_pad4 _ _ h4; exact digitChar_mod_ne_dot k
  · decide
  · obtain ⟨k, rfl⟩ := mem_pad2 _ _ h2; exact digitChar_mod_ne_dot k
  · decide
  · obtain ⟨k, rfl⟩ := mem_pad2 _ _ h2; exact digitChar_mod_ne_dot k
  · decide
  · obtain ⟨k, rfl⟩ := mem_pad2 _ _ h2; exact digitChar_mod_ne_dot k
  · decide
  · obtain ⟨k, rfl⟩ := mem_pad2 _ _ h2; exact digitChar_mod_ne_dot k

/-- Filenames are not required to start with the prefix: any extension
reachable by the source is either empty or starts the `.`-split. -/
def ExtOk (ext : List Char) : Prop := ext = [] ∨ ∃ r, ext = '.' :: r

/-- The shape of a well-formed backup artifact name:
`custom_prefix + strftime(t) + extension`. -/
def mkName (custom_pre : String) (t : DateTime) (ext : List Char) : String :=
  custom_pre ++ String.mk (timeTagChars t ++ ext)

theorem get_tag_mkName (custom_pre : String) (t : DateTime) (ext : List Char)
    (hv : ValidDT t) (he : ExtOk ext) :
    get_backup_file_time_tag (mkName custom_pre t ext) custom_pre = .ok t := by
  unfold get_backup_file_time_tag mkName
  rw [String.data_append]
  show strptimeTag ((((custom_pre.data ++ (timeTagChars t ++ ext)).drop
    custom_pre.data.length)).takeWhile (fun c => decide (c ≠ '.'))) = .ok t
  rw [List.drop_left]
  rw [takeWhile_append_of_all _ _ (mem_timeTag_ne_dot t)]
  rcases he with rfl | ⟨r, rfl⟩
  · rw [List.takeWhile_nil, List.append_nil]
    exact strptimeTag_timeTag t hv
  · rw [List.takeWhile_cons]
    have : (decide (('.' : Char) ≠ '.')) = false := by decide
    rw [this]
    simp only [Bool.false_eq_true, if_false, List.append_nil]
    exact strptimeTag_timeTag t hv

/-! ### Helper facts about strings and the sniffed message -/

theorem string_data_inj {s t : String} (h : s.data = t.data) : s = t := by
  cases s; cases t; exact congrArg String.mk h

theorem string_append_left_cancel {a b c : String} (h : a ++ b = a ++ c) : b = c := by
  apply string_data_inj
  have h2 := congrArg String.data h
  simp only [String.data_append] at h2
  exact List.append_cancel_left h2

/-- A pattern-mismatch error always trips the message sniff: the phrase
sits in the literal tail of `"time data %r does not match format %r"`,
whatever the offending data was. -/
theorem sniffs_mismatch (d : List Char) : sniffsAsMalformed (.mismatch d) = true := by
  unfold sniffsAsMalformed msgOf
  apply decide_eq_true
  have hseg : "\x27 ".data ++ formatPhrase ++ " \x27_%Y-%m-%d_%H-%M\x27".data
      = "\x27 does not match format \x27_%Y-%m-%d_%H-%M\x27".data := by decide
  refine ⟨"time data \x27".data ++ (d ++ "\x27 ".data),
          " \x27_%Y-%m-%d_%H-%M\x27".data, ?_⟩
  rw [← hseg]
  simp [List.append_assoc]

/-! ### The purge scan as a filter -/

/-- Entries a purge scan survives without aborting: the tag parses, or the
failure's message is caught by the sniff of line 214. -/
def scanSafe (custom_pre : String) (f : String) : Bool :=
  match get_backup_file_time_tag f custom_pre with
  | .ok _ => true
  | .error e => sniffsAsMalformed e

/-- Entries the scan deletes: the tag parses and is strictly old. -/
def oldB (c : DateTime) (custom_pre : String) (f : String) : Bool :=
  match get_backup_file_time_tag f custom_pre with
  | .ok t => dtLt t c
  | .error _ => false

/-- Entries raising the pattern-mismatch `ValueError` (the spec's
`MalformedNameError`). -/
def malformedB (custom_pre : String) (f : String) : Bool :=
  match get_backup_file_time_tag f custom_pre with
  | .error (.mismatch _) => true
  | _ => false

/-- Entries that take the warn-and-continue branch. -/
def warnB (custom_pre : String) (f : String) : Bool :=
  match get_backup_file_time_tag f custom_pre with
  | .error e => sniffsAsMalformed e
  | .ok _ => false

/-- Propositional form of `malformedB`. -/
def MismatchName (custom_pre : String) (f : String) : Prop :=
  ∃ d, get_backup_file_time_tag f custom_pre = .error (.mismatch d)

/-- On a directory of scan-safe entries the purge is exactly a filter:
it removes the old well-parsing entries (at `directory_path + name`),
prints one warning per caught failure, and never aborts. -/
theorem purge_run_spec (c : DateTime) (dir : String) (files : List String)
    (custom_pre : String) (H : ∀ f ∈ files, scanSafe custom_pre f = true) :
    purge_old_files c dir files custom_pre =
      ⟨(files.filter (oldB c custom_pre)).map (fun f => dir ++ f),
       List.replicate (files.countP (warnB custom_pre)) (formatWarning dir),
       none⟩ := by
  induction files with
  | nil => rfl
  | cons f rest ih =>
    have hf := H f (by simp)
    have hrest := ih (fun g hg => H g (by simp [hg]))
    rcases hparse : get_backup_file_time_tag f custom_pre with e | t
    · have hsniff : sniffsAsMalformed e = true := by
        simpa [scanSafe, hparse] using hf
      simp [purge_old_files, hparse, hsniff, hrest, List.filter_cons,
        List.countP_cons, oldB, warnB, List.replicate_succ]
    · by_cases hlt : dtLt t c = true
      · simp [purge_old_files, hparse, hrest, List.filter_cons, List.countP_cons,
          oldB, warnB, hlt]
      · simp [purge_old_files, hparse, hrest, List.filter_cons, List.countP_cons,
          oldB, warnB, hlt]

/-- **C2**: parsing `prefix + format(t) + ".ext"` with
`get_backup_file_time_tag` recovers `t`, for every prefix and every
minute-resolution instant in the codec's domain (calendar-valid,
`1900 <= year <= 9999`, the range Python 2's `strftime` accepts). -/
theorem time_tag_round_trip (t : DateTime) (custom_pre : String) (hv : ValidDT t) :
    get_backup_file_time_tag (custom_pre ++ time_string t ++ ".ext") custom_pre =
      .ok t := by
  have he : custom_pre ++ time_string t ++ ".ext" = mkName custom_pre t ".ext".data := by
    rw [String.append_assoc]; rfl
  rw [he]
  exact get_tag_mkName custom_pre t ".ext".data hv (Or.inr ⟨"ext".data, by decide⟩)

/-- Witness for C2 at a concrete prefix and instant. -/
theorem time_tag_round_trip_witness :
    get_backup_file_time_tag ("backup" ++ time_string ⟨2024, 6, 15, 12, 30⟩ ++ ".ext")
      "backup" = .ok ⟨2024, 6, 15, 12, 30⟩ :=
  time_tag_round_trip ⟨2024, 6, 15, 12, 30⟩ "backup" (by decide)

/-- **C1**: over a directory whose entries are well-formed backup names
`prefix + format(t_i) + extension` plus names raising the pattern-mismatch
error (the spec's `MalformedNameError`), `purge_old_files` finishes the
scan without a fatal error, removes exactly the well-formed entries whose
`t_i` is strictly before the cutoff, leaves malformed entries untouched,
and prints one directory-identifying warning per malformed entry. -/
theorem purge_deletes_exactly_old (c : DateTime) (dir custom_pre : String)
    (files : List String)
    (H : ∀ f ∈ files, (∃ t ext, ValidDT t ∧ ExtOk ext ∧ f = mkName custom_pre t ext)
        ∨ MismatchName custom_pre f) :
    (purge_old_files c dir files custom_pre).fatal = none
    ∧ (∀ f ∈ files, ∀ t ext, ValidDT t → ExtOk ext → f = mkName custom_pre t ext →
        ((dir ++ f) ∈ (purge_old_files c dir files custom_pre).removed
          ↔ dtLt t c = true))
    ∧ (∀ f ∈ files, MismatchName custom_pre f →
        (dir ++ f) ∉ (purge_old_files c dir files custom_pre).removed)
    ∧ (purge_old_files c dir files custom_pre).warnings =
        List.replicate (files.countP (malformedB custom_pre)) (formatWarning dir) := by
  have Hsafe : ∀ f ∈ files, scanSafe custom_pre f = true := by
    intro f hf
    rcases H f hf with ⟨t, ext, hv, hee, rfl⟩ | ⟨d, hd⟩
    · simp [scanSafe, get_tag_mkName custom_pre t ext hv hee]
    · simp [scanSafe, hd, sniffs_mismatch]
  have hrun := purge_run_spec c dir files custom_pre Hsafe
  refine ⟨by rw [hrun], ?_, ?_, ?_⟩
  · intro f hf t ext hv hee hfeq
    subst hfeq
    have hparse := get_tag_mkName custom_pre t ext hv hee
    rw [hrun]
    simp only [List.mem_map]
    constructor
    · rintro ⟨g, hg, hgeq⟩
      have hgf : g = mkName custom_pre t ext := string_append_left_cancel hgeq
      subst hgf
      have h2 := (List.mem_filter.mp hg).2
      simpa [oldB, hparse] using h2
    · intro hlt
      exact ⟨mkName custom_pre t ext,
        List.mem_filter.mpr ⟨hf, by simp [oldB, hparse, hlt]⟩, rfl⟩
  · rintro f hf ⟨d, hd⟩ hmem
    rw [hrun] at hmem
    simp only [List.mem_map] at hmem
    obtain ⟨g, hg, hgeq⟩ := hmem
    have hgf : g = f := string_append_left_cancel hgeq
    subst hgf
    have h2 := (List.mem_filter.mp hg).2
    simp [oldB, hd] at h2
  · rw [hrun]
    have hcnt : files.countP (warnB custom_pre) = files.countP (malformedB custom_pre) := by
      apply List.countP_congr
      intro f hf
      rcases H f hf with ⟨t, ext, hv, hee, rfl⟩ | ⟨d, hd⟩
      · simp [warnB, malformedB, get_tag_mkName custom_pre t ext hv hee]
      · simp [warnB, malformedB, hd, sniffs_mismatch]
    rw [hcnt]

/-- Witness for C1 at the spec's example scenario. -/
theorem purge_deletes_exactly_old_witness :
    (purge_old_files ⟨2024, 1, 1, 0, 0⟩ "/b/"
      ["backup_2023-12-01_00-00.tbz", "backup_2024-02-01_00-00.tbz", "backup_bad.tbz"]
      "backup").fatal = none
    ∧ ("/b/" ++ "backup_2023-12-01_00-00.tbz") ∈ (purge_old_files ⟨2024, 1, 1, 0, 0⟩ "/b/"
      ["backup_2023-12-01_00-00.tbz", "backup_2024-02-01_00-00.tbz", "backup_bad.tbz"]
      "backup").removed := by
  have H : ∀ f ∈ ["backup_2023-12-01_00-00.tbz", "backup_2024-02-01_00-00.tbz",
      "backup_bad.tbz"],
      (∃ t ext, ValidDT t ∧ ExtOk ext ∧ f = mkName "backup" t ext)
        ∨ MismatchName "backup" f := by
    intro f hf
    simp only [List.mem_cons, List.not_mem_nil, or_false] at hf
    rcases hf with rfl | rfl | rfl
    · exact Or.inl ⟨⟨2023, 12, 1, 0, 0⟩, ".tbz".data, by decide,
        Or.inr ⟨"tbz".data, by decide⟩, by decide⟩
    · exact Or.inl ⟨⟨2024, 2, 1, 0, 0⟩, ".tbz".data, by decide,
        Or.inr ⟨"tbz".data, by decide⟩, by decide⟩
    · exact Or.inr ⟨"_bad".data, rfl⟩
  have h := purge_deletes_exactly_old ⟨2024, 1, 1, 0, 0⟩ "/b/" "backup"
    ["backup_2023-12-01_00-00.tbz", "backup_2024-02-01_00-00.tbz", "backup_bad.tbz"] H
  refine ⟨h.1, ?_⟩
  exact (h.2.1 "backup_2023-12-01_00-00.tbz" (by simp) ⟨2023, 12, 1, 0, 0⟩ ".tbz".data
    (by decide) (Or.inr ⟨"tbz".data, by decide⟩) (by decide)).mpr (by decide)

/-- **C3** (counterexample): a parse failure that is *not* a pattern
mismatch — here trailing unconverted data — is nevertheless caught,
warned about and skipped when the leftover text happens to contain the
sniffed phrase, so "any other kind of parse failure propagates and stops
the whole purge" is false as stated. -/
theorem purge_message_sniffing_counterexample :
    get_backup_file_time_tag "backup_2024-01-01_00-00does not match format.tbz" "backup"
      = .error (.unconverted "does not match format".data)
    ∧ purge_old_files ⟨2024, 6, 1, 0, 0⟩ "/b/"
        ["backup_2024-01-01_00-00does not match format.tbz"] "backup"
      = ⟨[], [formatWarning "/b/"], none⟩ := by
  exact ⟨rfl, by decide⟩

/-- **C3** (amended): an entry failing with the pattern-mismatch error
always warns (naming the scanned directory) and the scan continues; any
other parse failure propagates and stops the scan at that entry — *unless*
its `ValueError` message happens to contain the text
`"does not match format"` (possible for unconverted-trailing-data errors),
in which case it too is warned and skipped. -/
theorem purge_parse_failure_handling (c : DateTime) (dir custom_pre f : String)
    (rest : List String) (e : ParseError)
    (hf : get_backup_file_time_tag f custom_pre = .error e) :
    (∀ d, sniffsAsMalformed (ParseError.mismatch d) = true)
    ∧ (sniffsAsMalformed e = true →
        purge_old_files c dir (f :: rest) custom_pre =
          ⟨(purge_old_files c dir rest custom_pre).removed,
           formatWarning dir :: (purge_old_files c dir rest custom_pre).warnings,
           (purge_old_files c dir rest custom_pre).fatal⟩)
    ∧ (sniffsAsMalformed e = false →
        purge_old_files c dir (f :: rest) custom_pre = ⟨[], [], some e⟩) := by
  refine ⟨sniffs_mismatch, ?_, ?_⟩ <;> intro h <;>
    simp [purge_old_files, hf, h]

/-- Witness for the amended C3: a calendar-invalid day (`2024-02-30`)
aborts the scan before the later, genuinely old entry is examined. -/
theorem purge_parse_failure_handling_witness :
    purge_old_files ⟨2024, 6, 1, 0, 0⟩ "/b/"
      ["backup_2024-02-30_00-00.tbz", "backup_2020-01-01_00-00.tbz"] "backup"
      = ⟨[], [], some .dayOutOfRange⟩ :=
  (purge_parse_failure_handling ⟨2024, 6, 1, 0, 0⟩ "/b/" "backup"
    "backup_2024-02-30_00-00.tbz" ["backup_2020-01-01_00-00.tbz"]
    .dayOutOfRange rfl).2.2 (by decide)

/-- **C9**: `get_backup_file_time_tag` never compares the leading
characters of the file name with `custom_prefix`: it only drops
`len(custom_prefix)` characters, so a name with any equal-length impostor
in place of the prefix parses identically — and `purge_old_files`
deletes such a file when its embedded timestamp is old, as the concrete
second conjunct shows for `virus1_...` scanned with prefix `backup`. -/
theorem time_tag_drops_by_length_only (custom_pre q s : String)
    (hlen : q.length = custom_pre.length) :
    get_backup_file_time_tag (q ++ s) custom_pre =
      get_backup_file_time_tag (custom_pre ++ s) custom_pre
    ∧ purge_old_files ⟨2024, 1, 1, 0, 0⟩ "/b/" ["virus1_2020-01-01_00-00.tbz"] "backup"
      = ⟨["/b/virus1_2020-01-01_00-00.tbz"], [], none⟩ := by
  constructor
  · unfold get_backup_file_time_tag
    rw [String.data_append, String.data_append]
    have hq : (q.data ++ s.data).drop custom_pre.length = s.data := by
      have h1 : custom_pre.length = q.data.length := hlen.symm
      rw [h1, List.drop_left]
    have hc : (custom_pre.data ++ s.data).drop custom_pre.length = s.data :=
      List.drop_left custom_pre.data s.data
    simp only [hq, hc]
  · decide

/-- Witness for C9 with the impostor prefix `virus1` (same length as
`backup`). -/
theorem time_tag_drops_by_length_only_witness :
    get_backup_file_time_tag ("virus1" ++ "_2020-01-01_00-00.tbz") "backup" =
      get_backup_file_time_tag ("backup" ++ "_2020-01-01_00-00.tbz") "backup"
    ∧ purge_old_files ⟨2024, 1, 1, 0, 0⟩ "/b/" ["virus1_2020-01-01_00-00.tbz"] "backup"
      = ⟨["/b/virus1_2020-01-01_00-00.tbz"], [], none⟩ :=
  time_tag_drops_by_length_only "backup" "virus1" "_2020-01-01_00-00.tbz" (by decide)

/-! ### Side effects, errors, and Python truthiness -/

/-- Observable side effects of a backup/restore run, in execution order.
`call` is `shell.call` (running the given command line); `tarbz`/`untarbz`
are the archiver; `copy` is `shutil.copy`; `s3` is `s3.s3_upload` (the
credential arguments are omitted: no property here depends on them);
`remove` is `os.remove`; `rmtree` is `shutil.rmtree` (recursive delete). -/
inductive Effect where
  | call (cmd : String)
  | tarbz (src dest : String)
  | untarbz (src dest : String)
  | copy (src dest : String)
  | s3 (file bucket : String)
  | remove (p : String)
  | rmtree (p : String)
deriving DecidableEq, Repr

/-- Uncaught Python exceptions of an orchestrator run. -/
inductive RunError where
  /-- `raise Exception(msg)` from backups.py itself. -/
  | pyException (msg : String)
  /-- a `strptime` `ValueError` propagating out of `purge_old_files`. -/
  | valueErr (e : ParseError)
  /-- Modelled from the spec: `shell.call`/`untarbz` (not under src/) raise
  on a non-zero exit of the external command. -/
  | externalCommandError
  /-- Modelled from the spec: any other I/O failure (e.g. `rmtree`). -/
  | filesystemError
deriving DecidableEq, Repr

/-- Python truthiness of an optional string argument (`None` and `""` are
both falsy, matching `if attached_directory_path:` etc.). -/
def pyTruthyS : Option String → Bool
  | none => false
  | some s => !(s == "")

/-- Python truthiness of an optional integer argument (`None` and `0` are
both falsy, matching `if purge_local:`). -/
def pyTruthyN : Option Nat → Bool
  | none => false
  | some n => !(n == 0)

/-- The string value of an optional argument at a use site its truthiness
gate protects. -/
def optVal (o : Option String) : String := o.getD ""

/-! ### Command builders -/

/-- The `dump_command` string built by `mongodump` (backups.py 148-159). -/
def mongodump_command (mongo_user mongo_password mongo_dump_directory_path : String)
    (host port database : Option String) (silent : Bool) : String :=
  let dump_command :=
    if silent then
      "mongodump --quiet -u " ++ mongo_user ++ " -p " ++ mongo_password ++
        " -o " ++ mongo_dump_directory_path
    else
      "mongodump -u " ++ mongo_user ++ " -p " ++ mongo_password ++
        " -o " ++ mongo_dump_directory_path
  let c2 := if pyTruthyS host then dump_command ++ " --host " ++ optVal host else dump_command
  let c3 := if pyTruthyS port then c2 ++ " --port " ++ optVal port else c2
  if pyTruthyS database then c3 ++ " --db " ++ optVal database else c3

/-- `mongodump` (backups.py 139-160) as its effect trace: delete the dump
directory if it exists, then run the dump command.  `fs` is the
`os.path.exists` oracle. -/
def mongodump (fs : String → Bool) (mongo_user mongo_password mongo_dump_directory_path : String)
    (host port database : Option String) (silent : Bool) : List Effect :=
  (if fs mongo_dump_directory_path then [Effect.rmtree mongo_dump_directory_path] else [])
    ++ [Effect.call (mongodump_command mongo_user mongo_password
          mongo_dump_directory_path host port database silent)]

/-- The `mongorestore_command` string built by `mongorestore`
(backups.py 176-187). -/
def mongorestore_command (mongo_user mongo_password backup_directory_path : String)
    (host port : Option String) (drop_database silent : Bool) : String :=
  let c :=
    if silent then
      "mongorestore --quiet -u " ++ mongo_user ++ " -p " ++ mongo_password ++
        " " ++ backup_directory_path
    else
      "mongorestore -v -u " ++ mongo_user ++ " -p " ++ mongo_password ++
        " " ++ backup_directory_path
  let c2 := if pyTruthyS host then c ++ " --host " ++ optVal host else c
  let c3 := if pyTruthyS port then c2 ++ " --port " ++ optVal port else c2
  if drop_database then c3 ++ " --drop" else c3

/-- The Python signatures of `restore` (line 102) and `mongorestore`
(line 163) both declare `drop_database=False`: dropping is opt-in. -/
def drop_database_default : Bool := false

/-- `mongorestore` (backups.py 163-188) as a trace plus error: check the
input directory exists, then run the restore command.  `call_ok` is the
(spec-modelled) success of the external command. -/
def mongorestore (fs : String → Bool) (call_ok : Bool)
    (mongo_user mongo_password backup_directory_path : String)
    (host port : Option String) (drop_database silent : Bool) :
    List Effect × Option RunError :=
  if !(fs backup_directory_path) then
    ([], some (.pyException ("the provided tar directory " ++ backup_directory_path ++
      " does not exist.")))
  else
    ([Effect.call (mongorestore_command mongo_user mongo_password backup_directory_path
        host port drop_database silent)],
     if call_ok then none else some .externalCommandError)

/-- **C6**: when the dump output directory already exists, `mongodump`
recursively deletes it (and with it all prior contents) before the dump
command is invoked — the trace is exactly `rmtree` then `call`; when it
does not exist, nothing at all is deleted. -/
theorem mongodump_clears_existing_output_dir (fs : String → Bool)
    (mongo_user mongo_password mongo_dump_directory_path : String)
    (host port database : Option String) (silent : Bool) :
    (fs mongo_dump_directory_path = true →
      mongodump fs mongo_user mongo_password mongo_dump_directory_path host port database silent
        = [Effect.rmtree mongo_dump_directory_path,
           Effect.call (mongodump_command mongo_user mongo_password
             mongo_dump_directory_path host port database silent)])
    ∧ (fs mongo_dump_directory_path = false →
      mongodump fs mongo_user mongo_password mongo_dump_directory_path host port database silent
        = [Effect.call (mongodump_command mongo_user mongo_password
             mongo_dump_directory_path host port database silent)]
      ∧ ∀ p, Effect.rmtree p ∉ mongodump fs mongo_user mongo_password
          mongo_dump_directory_path host port database silent
      ∧ Effect.remove p ∉ mongodump fs mongo_user mongo_password
          mongo_dump_directory_path host port database silent) := by
  constructor
  · intro h
    simp [mongodump, h]
  · intro h
    refine ⟨by simp [mongodump, h], ?_⟩
    intro p
    simp [mongodump, h]

/-- Witness for C6: both the existing- and missing-directory cases at
concrete arguments. -/
theorem mongodump_clears_existing_output_dir_witness :
    mongodump (fun _ => true) "u" "pw" "/tmp/mongo_dump" none none none false
      = [Effect.rmtree "/tmp/mongo_dump",
         Effect.call (mongodump_command "u" "pw" "/tmp/mongo_dump" none none none false)]
    ∧ mongodump (fun _ => false) "u" "pw" "/tmp/mongo_dump" none none none false
      = [Effect.call (mongodump_command "u" "pw" "/tmp/mongo_dump" none none none false)] :=
  ⟨(mongodump_clears_existing_output_dir (fun _ => true) "u" "pw" "/tmp/mongo_dump"
      none none none false).1 rfl,
   ((mongodump_clears_existing_output_dir (fun _ => false) "u" "pw" "/tmp/mongo_dump"
      none none none false).2 rfl).1⟩

/-! ### The `--drop` flag: substring machinery -/

/-- The characters of the destructive restore flag. -/
def dropFlagChars : List Char := "--drop".data

/-- The constructed command contains the `--drop` flag: the flag's
characters occur contiguously in the command string. -/
def hasDropFlag (cmd : String) : Prop := dropFlagChars <:+: cmd.data

instance (cmd : String) : Decidable (hasDropFlag cmd) := by
  unfold hasDropFlag; exact inferInstance

theorem infix_cons_split {pat l : List Char} {c : Char} (h : pat <:+: c :: l) :
    pat <+: c :: l ∨ pat <:+: l := by
  obtain ⟨s, t, hst⟩ := h
  cases s with
  | nil => exact Or.inl ⟨t, by simpa using hst⟩
  | cons c2 s2 =>
    simp only [List.cons_append] at hst
    injection hst with h1 h2
    exact Or.inr ⟨s2, t, h2⟩

/-- A space-free pattern is an infix of `' ' :: b` only if it is one of
`b`. -/
theorem not_infix_cons_space {pat b : List Char} (hsp : ' ' ∉ pat) (hne : pat ≠ [])
    (hb : ¬ pat <:+: b) : ¬ pat <:+: (' ' :: b) := by
  intro h
  rcases infix_cons_split h with hpre | hinf
  · obtain ⟨t, ht⟩ := hpre
    cases pat with
    | nil => exact hne rfl
    | cons p0 ps =>
      simp only [List.cons_append] at ht
      injection ht with h1 h2
      exact hsp (h1 ▸ List.mem_cons_self p0 ps)
  · exact hb hinf

/-- A space-free pattern cannot straddle a space boundary: it is an infix
of `a ++ ' ' :: b` only if it is one of `a` or of `' ' :: b`. -/
theorem not_infix_append_space {pat : List Char} (a : List Char) {b : List Char}
    (hsp : ' ' ∉ pat) (hne : pat ≠ [])
    (ha : ¬ pat <:+: a) (hb : ¬ pat <:+: (' ' :: b)) : ¬ pat <:+: (a ++ ' ' :: b) := by
  induction a with
  | nil => simpa using hb
  | cons c a2 ih =>
    intro h
    rw [List.cons_append] at h
    rcases infix_cons_split h with hpre | hinf
    · obtain ⟨t, ht⟩ := hpre
      have htake : pat = ((c :: a2) ++ (' ' :: b)).take pat.length := by
        have h2 := List.take_left pat t
        rw [ht] at h2
        exact h2.symm
      rw [List.take_append_eq_append_take] at htake
      by_cases hlen : pat.length ≤ (c :: a2).length
      · apply ha
        have h0 : pat.length - (c :: a2).length = 0 := by omega
        rw [h0, List.take_zero, List.append_nil] at htake
        refine ⟨[], (c :: a2).drop pat.length, ?_⟩
        rw [List.nil_append]
        nth_rewrite 1 [htake]
        exact List.take_append_drop _ _
      · rw [List.take_of_length_le (by omega)] at htake
        have h1 : pat.length - (c :: a2).length = (pat.length - (c :: a2).length - 1) + 1 := by
          omega
        rw [h1, List.take_succ_cons] at htake
        apply hsp
        rw [htake]
        exact List.mem_append_right _ (List.mem_cons_self _ _)
    · refine ih (fun hx => ha ?_) hinf
      obtain ⟨s, t, hst⟩ := hx
      exact ⟨c :: s, t, by simp [hst]⟩

/-- `--drop` is not an infix of either restore base command when it is not
an infix of the user, password, and directory arguments (it cannot straddle
the spaces separating them). -/
theorem no_drop_in_restore_base (silent : Bool) (u p d : String)
    (hu : ¬ hasDropFlag u) (hp : ¬ hasDropFlag p) (hd : ¬ hasDropFlag d) :
    ¬ hasDropFlag (if silent then
        "mongorestore --quiet -u " ++ u ++ " -p " ++ p ++ " " ++ d
      else
        "mongorestore -v -u " ++ u ++ " -p " ++ p ++ " " ++ d) := by
  unfold hasDropFlag at *
  have hsp : ' ' ∉ dropFlagChars := by decide
  have hne : dropFlagChars ≠ [] := by decide
  cases silent
  · have e : ("mongorestore -v -u " ++ u ++ " -p " ++ p ++ " " ++ d).data
        = "mongorestore -v -u".data ++ ' ' :: (u.data ++ ' ' :: ("-p".data ++
            ' ' :: (p.data ++ ' ' :: d.data))) := by
      have c1 : ("mongorestore -v -u " : String).data
          = "mongorestore -v -u".data ++ [' '] := by decide
      have c2 : (" -p " : String).data = ' ' :: ("-p".data ++ [' ']) := by decide
      have c3 : (" " : String).data = [' '] := by decide
      simp only [String.data_append, c1, c2, c3, List.append_assoc,
        List.cons_append, List.singleton_append, List.nil_append]
    simp only [if_false, Bool.false_eq_true, e]
    exact not_infix_append_space _ hsp hne (by decide)
      (not_infix_cons_space hsp hne (not_infix_append_space _ hsp hne hu
        (not_infix_cons_space hsp hne (not_infix_append_space _ hsp hne (by decide)
          (not_infix_cons_space hsp hne (not_infix_append_space _ hsp hne hp
            (not_infix_cons_space hsp hne hd)))))))
  · have e : ("mongorestore --quiet -u " ++ u ++ " -p " ++ p ++ " " ++ d).data
        = "mongorestore --quiet -u".data ++ ' ' :: (u.data ++ ' ' :: ("-p".data ++
            ' ' :: (p.data ++ ' ' :: d.data))) := by
      have c1 : ("mongorestore --quiet -u " : String).data
          = "mongorestore --quiet -u".data ++ [' '] := by decide
      have c2 : (" -p " : String).data = ' ' :: ("-p".data ++ [' ']) := by decide
      have c3 : (" " : String).data = [' '] := by decide
      simp only [String.data_append, c1, c2, c3, List.append_assoc,
        List.cons_append, List.singleton_append, List.nil_append]
    simp only [if_true, e]
    exact not_infix_append_space _ hsp hne (by decide)
      (not_infix_cons_space hsp hne (not_infix_append_space _ hsp hne hu
        (not_infix_cons_space hsp hne (not_infix_append_space _ hsp hne (by decide)
          (not_infix_cons_space hsp hne (not_infix_append_space _ hsp hne hp
            (not_infix_cons_space hsp hne hd)))))))

/-- Appending `" --host v"` / `" --port v"` style suffixes keeps the
command `--drop`-free when the option value is. -/
theorem no_drop_append_opt (X v litfull litcore : String)
    (hsplit : litfull.data = ' ' :: (litcore.data ++ [' ']))
    (hX : ¬ hasDropFlag X) (hcore : ¬ dropFlagChars <:+: litcore.data)
    (hv : ¬ hasDropFlag v) : ¬ hasDropFlag (X ++ litfull ++ v) := by
  unfold hasDropFlag at *
  have hsp : ' ' ∉ dropFlagChars := by decide
  have hne : dropFlagChars ≠ [] := by decide
  have e : (X ++ litfull ++ v).data
      = X.data ++ ' ' :: (litcore.data ++ ' ' :: v.data) := by
    simp only [String.data_append, hsplit, List.append_assoc, List.cons_append,
      List.singleton_append, List.nil_append]
  rw [e]
  exact not_infix_append_space _ hsp hne hX
    (not_infix_cons_space hsp hne (not_infix_append_space _ hsp hne hcore
      (not_infix_cons_space hsp hne hv)))

/-- **C5**: the restore command built by `mongorestore` contains the
destructive `--drop` flag iff `drop_database` is true, and `drop_database`
defaults to false in both `restore` and `mongorestore` signatures.  The
argument strings are assumed not to contain the literal flag text
themselves — string concatenation offers no quoting, a limitation the
spec itself records as an open question. -/
theorem restore_drop_flag_iff (mongo_user mongo_password backup_directory_path : String)
    (host port : Option String) (silent : Bool)
    (hu : ¬ hasDropFlag mongo_user) (hp : ¬ hasDropFlag mongo_password)
    (hd : ¬ hasDropFlag backup_directory_path)
    (hh : ∀ s, host = some s → ¬ hasDropFlag s)
    (hpo : ∀ s, port = some s → ¬ hasDropFlag s) :
    (∀ drop_database : Bool,
      hasDropFlag (mongorestore_command mongo_user mongo_password backup_directory_path
        host port drop_database silent) ↔ drop_database = true)
    ∧ drop_database_default = false := by
  have hhv : ¬ hasDropFlag (optVal host) := by
    cases host with
    | none => decide
    | some s => simpa [optVal] using hh s rfl
  have hpv : ¬ hasDropFlag (optVal port) := by
    cases port with
    | none => decide
    | some s => simpa [optVal] using hpo s rfl
  have hkey : ¬ hasDropFlag (mongorestore_command mongo_user mongo_password
      backup_directory_path host port false silent) := by
    cases silent
    · have hbase := no_drop_in_restore_base false mongo_user mongo_password
        backup_directory_path hu hp hd
      simp only [Bool.false_eq_true, if_false] at hbase
      simp only [mongorestore_command, Bool.false_eq_true, if_false]
      split_ifs
      · exact no_drop_append_opt _ _ " --port " "--port" (by decide)
          (no_drop_append_opt _ _ " --host " "--host" (by decide) hbase (by decide) hhv)
          (by decide) hpv
      · exact no_drop_append_opt _ _ " --port " "--port" (by decide) hbase (by decide) hpv
      · exact no_drop_append_opt _ _ " --host " "--host" (by decide) hbase (by decide) hhv
      · exact hbase
    · have hbase := no_drop_in_restore_base true mongo_user mongo_password
        backup_directory_path hu hp hd
      simp only [if_true] at hbase
      simp only [mongorestore_command, Bool.false_eq_true, if_false, if_true]
      split_ifs
      · exact no_drop_append_opt _ _ " --port " "--port" (by decide)
          (no_drop_append_opt _ _ " --host " "--host" (by decide) hbase (by decide) hhv)
          (by decide) hpv
      · exact no_drop_append_opt _ _ " --port " "--port" (by decide) hbase (by decide) hpv
      · exact no_drop_append_opt _ _ " --host " "--host" (by decide) hbase (by decide) hhv
      · exact hbase
  refine ⟨?_, rfl⟩
  intro drop_database
  cases drop_database
  · exact ⟨fun h => absurd h hkey, fun h => Bool.noConfusion h⟩
  · refine ⟨fun _ => rfl, fun _ => ?_⟩
    have heq : mongorestore_command mongo_user mongo_password backup_directory_path
        host port true silent
        = mongorestore_command mongo_user mongo_password backup_directory_path
            host port false silent ++ " --drop" := by
      simp [mongorestore_command]
    rw [hasDropFlag, heq, String.data_append]
    have hdd : (" --drop" : String).data = ' ' :: dropFlagChars := by decide
    rw [hdd]
    exact ⟨(mongorestore_command mongo_user mongo_password backup_directory_path
        host port false silent).data ++ [' '], [],
      by simp [List.append_assoc, List.singleton_append]⟩

/-- Witness for C5 at concrete benign arguments: the flag appears with
`drop_database=true` and is absent with `drop_database=false`. -/
theorem restore_drop_flag_iff_witness :
    hasDropFlag (mongorestore_command "user" "pw" "/tmp/mongo_dump" none none true false)
    ∧ ¬ hasDropFlag (mongorestore_command "user" "pw" "/tmp/mongo_dump" none none false false) := by
  have h := restore_drop_flag_iff "user" "pw" "/tmp/mongo_dump" none none false
    (by decide) (by decide) (by decide) (fun s hs => by cases hs) (fun s hs => by cases hs)
  exact ⟨(h.1 true).mpr rfl, fun hx => Bool.noConfusion ((h.1 false).mp hx)⟩

/-! ### Gregorian ordinal arithmetic for `timedelta(days=k)` -/

/-- Days in the months strictly before `m` of year `y`. -/
def daysBeforeMonth (y m : Nat) : Nat :=
  (List.range (m - 1)).foldl (fun acc i => acc + daysInMonth y (i + 1)) 0

/-- CPython `date.toordinal`: day 1 is 0001-01-01. -/
def dtToOrdinal (t : DateTime) : Nat :=
  365 * (t.year - 1) + (t.year - 1) / 4 + (t.year - 1) / 400
    + daysBeforeMonth t.year t.month + t.day - (t.year - 1) / 100

/-- Walk the months of year `y` to locate a 1-based day-of-year. -/
def monthFromDay : Nat → Nat → Nat → Nat → Nat × Nat
  | 0, _, m, doy => (m, doy)
  | fuel + 1, y, m, doy =>
    if doy ≤ daysInMonth y m then (m, doy)
    else monthFromDay fuel y (m + 1) (doy - daysInMonth y m)

/-- CPython `date.fromordinal`. -/
def dtFromOrdinal (n0 : Nat) : Nat × Nat × Nat :=
  let n := n0 - 1
  let n400 := n / 146097
  let r1 := n % 146097
  let n100 := r1 / 36524
  let r2 := r1 % 36524
  let n4 := r2 / 1461
  let r3 := r2 % 1461
  let n1 := r3 / 365
  let r4 := r3 % 365
  let year := 400 * n400 + 100 * n100 + 4 * n4 + n1 + 1
  if n1 = 4 ∨ n100 = 4 then (year - 1, 12, 31)
  else
    let md := monthFromDay 12 year 1 (r4 + 1)
    (year, md.1, md.2)

/-- `utcnow().replace(second=0, microsecond=0) - timedelta(days=k)`
(backups.py 86-87 and 91-92): Gregorian date arithmetic at minute
resolution.  Instants before year 1, where Python raises `OverflowError`,
are outside the model's domain (the Nat ordinal clamps). -/
def dtSubDays (t : DateTime) (k : Nat) : DateTime :=
  let ymd := dtFromOrdinal (dtToOrdinal t - k)
  ⟨ymd.1, ymd.2.1, ymd.2.2, t.hour, t.minute⟩

/-- `local_backup_file.split("/")[-1]` (backups.py line 80): the substring
after the last `/` (the whole string when there is none). -/
def pathBasename (p : String) : String :=
  String.mk ((p.data.reverse.takeWhile (fun c => c ≠ '/')).reverse)

/-! ### The orchestrators -/

/-- `restore` (backups.py 99-136) as a trace plus error.  `fs` is the
`path.exists` oracle (queried for the tbz path, the optional
`<staging>/admin` subpath, and — inside `mongorestore` — the staging
directory); `untar_ok`/`strip_ok`/`restore_ok` are the success of the
external decompression, of the strip `rmtree`, and of the restore
command; their failure modes are modelled from the spec since
`shell.py` is not under src/. -/
def restore (fs : String → Bool) (untar_ok strip_ok restore_ok : Bool)
    (mongo_user mongo_password backup_tbz_path backup_directory_output_path : String)
    (host port : Option String)
    (drop_database cleanup silent skip_system_and_user_files : Bool) :
    List Effect × Option RunError :=
  if !(fs backup_tbz_path) then
    ([], some (.pyException ("the provided tar file " ++ backup_tbz_path ++
      " does not exist.")))
  else
    let e1 := [Effect.untarbz backup_tbz_path backup_directory_output_path]
    if !untar_ok then (e1, some .externalCommandError)
    else
      let system_and_users_path := backup_directory_output_path ++ "/admin"
      let doStrip := skip_system_and_user_files && fs system_and_users_path
      let e2 := if doStrip then e1 ++ [Effect.rmtree system_and_users_path] else e1
      if doStrip && !strip_ok then (e2, some .filesystemError)
      else
        match mongorestore fs restore_ok mongo_user mongo_password
            backup_directory_output_path host port drop_database silent with
        | (es, some err) => (e2 ++ es, some err)
        | (es, none) =>
          if cleanup then
            (e2 ++ es ++ [Effect.rmtree backup_directory_output_path], none)
          else (e2 ++ es, none)

/-- `backup` (backups.py 38-96) as a trace plus error.  `fs` is
`path.exists`, `ls` is `os.listdir`, `now` the UTC instant of the run
(one instant for the whole run).  `tarbz` (in `shell.py`, not under src/)
is modelled from the spec: it produces the artifact at the requested path
and returns the produced artifact's path.  `s3_access_key_id` and
`s3_secret_key` are forwarded to the uploader and play no further role. -/
def backup (fs : String → Bool) (ls : String → List String) (now : DateTime)
    (mongo_username mongo_password local_backup_directory_path : String)
    (host port database attached_directory_path : Option String)
    (custom_pre mongo_backup_directory_path : String)
    (s3_bucket s3_access_key_id s3_secret_key : Option String)
    (purge_local purge_attached : Option Nat)
    (cleanup silent : Bool) : List Effect × Option RunError :=
  if pyTruthyS attached_directory_path && !(fs (optVal attached_directory_path)) then
    ([], some (.pyException ("ERROR.  Would have to create " ++
      optVal attached_directory_path ++
      " for your attached storage, make sure that file paths already exist and re-run")))
  else
    let full_file_name_path := local_backup_directory_path ++ custom_pre ++ time_string now
    let e1 := mongodump fs mongo_username mongo_password mongo_backup_directory_path
      host port database silent
    let e2 := e1 ++ [Effect.tarbz mongo_backup_directory_path full_file_name_path]
    let local_backup_file := full_file_name_path
    let e3 := if pyTruthyS attached_directory_path then
        e2 ++ [Effect.copy local_backup_file
          (optVal attached_directory_path ++ pathBasename local_backup_file)]
      else e2
    let e4 := if pyTruthyS s3_bucket then
        e3 ++ [Effect.s3 local_backup_file (optVal s3_bucket)]
      else e3
    let step5 : List Effect × Option ParseError :=
      if pyTruthyN purge_local then
        let pr := purge_old_files (dtSubDays now (purge_local.getD 0))
          local_backup_directory_path (ls local_backup_directory_path) custom_pre
        (e4 ++ pr.removed.map Effect.remove, pr.fatal)
      else (e4, none)
    match step5 with
    | (es, some e) => (es, some (.valueErr e))
    | (es, none) =>
      let step6 : List Effect × Option ParseError :=
        if pyTruthyN purge_attached && pyTruthyS attached_directory_path then
          let pr := purge_old_files (dtSubDays now (purge_attached.getD 0))
            (optVal attached_directory_path) (ls (optVal attached_directory_path))
            custom_pre
          (es ++ pr.removed.map Effect.remove, pr.fatal)
        else (es, none)
      match step6 with
      | (es2, some e) => (es2, some (.valueErr e))
      | (es2, none) =>
        if cleanup then (es2 ++ [Effect.rmtree mongo_backup_directory_path], none)
        else (es2, none)

/-- **C7**: with cleanup enabled (the default), the staging directory is
`rmtree`d exactly on full success — after the restore command — while any
failure (missing tbz, decompression, the optional strip `rmtree`, missing
staging directory, or the restore command itself) leaves the staging
directory intact. -/
theorem restore_cleanup_only_after_success (fs : String → Bool)
    (untar_ok strip_ok restore_ok : Bool)
    (mongo_user mongo_password backup_tbz_path backup_directory_output_path : String)
    (host port : Option String) (drop_database silent skip_system_and_user_files : Bool) :
    ((restore fs untar_ok strip_ok restore_ok mongo_user mongo_password backup_tbz_path
        backup_directory_output_path host port drop_database true silent
        skip_system_and_user_files).2 = none →
      ∃ pre, (restore fs untar_ok strip_ok restore_ok mongo_user mongo_password
          backup_tbz_path backup_directory_output_path host port drop_database true silent
          skip_system_and_user_files).1 = pre ++
        [Effect.call (mongorestore_command mongo_user mongo_password
           backup_directory_output_path host port drop_database silent),
         Effect.rmtree backup_directory_output_path])
    ∧ (∀ err, (restore fs untar_ok strip_ok restore_ok mongo_user mongo_password
        backup_tbz_path backup_directory_output_path host port drop_database true silent
        skip_system_and_user_files).2 = some err →
      Effect.rmtree backup_directory_output_path ∉
        (restore fs untar_ok strip_ok restore_ok mongo_user mongo_password backup_tbz_path
          backup_directory_output_path host port drop_database true silent
          skip_system_and_user_files).1) := by
  have h3 : ("/admin" : String).data.length = 6 := by decide
  have hadm : backup_directory_output_path ≠ backup_directory_output_path ++ "/admin" := by
    intro h
    have h2 := congrArg (fun s : String => s.data.length) h
    simp only [String.data_append, List.length_append] at h2
    rw [h3] at h2
    omega
  rcases Bool.dichotomy (fs backup_tbz_path) with hfs1 | hfs1
  · have he : restore fs untar_ok strip_ok restore_ok mongo_user mongo_password
        backup_tbz_path backup_directory_output_path host port drop_database true silent
        skip_system_and_user_files = ([], some (.pyException ("the provided tar file " ++
          backup_tbz_path ++ " does not exist."))) := by
      simp [restore, hfs1]
    rw [he]
    exact ⟨(fun h => nomatch h), (fun err _ => List.not_mem_nil _)⟩
  rcases Bool.dichotomy untar_ok with hu | hu
  · have he : restore fs untar_ok strip_ok restore_ok mongo_user mongo_password
        backup_tbz_path backup_directory_output_path host port drop_database true silent
        skip_system_and_user_files =
        ([Effect.untarbz backup_tbz_path backup_directory_output_path],
         some .externalCommandError) := by
      simp [restore, hfs1, hu]
    rw [he]
    refine ⟨(fun h => nomatch h), fun err _ => ?_⟩
    simp
  rcases Bool.dichotomy (skip_system_and_user_files &&
      fs (backup_directory_output_path ++ "/admin")) with hstrip | hstrip
  · rcases Bool.dichotomy (fs backup_directory_output_path) with hfs2 | hfs2
    · have he : restore fs untar_ok strip_ok restore_ok mongo_user mongo_password
          backup_tbz_path backup_directory_output_path host port drop_database true
          silent skip_system_and_user_files =
          ([Effect.untarbz backup_tbz_path backup_directory_output_path],
           some (.pyException ("the provided tar directory " ++
             backup_directory_output_path ++ " does not exist."))) := by
        simp [restore, mongorestore, hfs1, hu, hstrip, hfs2]
      rw [he]
      refine ⟨(fun h => nomatch h), fun err _ => ?_⟩
      simp
    · rcases Bool.dichotomy restore_ok with hrok | hrok
      · have he : restore fs untar_ok strip_ok restore_ok mongo_user mongo_password
            backup_tbz_path backup_directory_output_path host port drop_database true
            silent skip_system_and_user_files =
            ([Effect.untarbz backup_tbz_path backup_directory_output_path,
              Effect.call (mongorestore_command mongo_user mongo_password
                backup_directory_output_path host port drop_database silent)],
             some .externalCommandError) := by
          simp [restore, mongorestore, hfs1, hu, hstrip, hfs2, hrok]
        rw [he]
        refine ⟨(fun h => nomatch h), fun err _ => ?_⟩
        simp
      · have he : restore fs untar_ok strip_ok restore_ok mongo_user mongo_password
            backup_tbz_path backup_directory_output_path host port drop_database true
            silent skip_system_and_user_files =
            ([Effect.untarbz backup_tbz_path backup_directory_output_path,
              Effect.call (mongorestore_command mongo_user mongo_password
                backup_directory_output_path host port drop_database silent),
              Effect.rmtree backup_directory_output_path], none) := by
          simp [restore, mongorestore, hfs1, hu, hstrip, hfs2, hrok]
        rw [he]
        refine ⟨fun _ => ?_, fun err h => nomatch h⟩
        exact ⟨[Effect.untarbz backup_tbz_path backup_directory_output_path], by simp⟩
  · rcases Bool.dichotomy strip_ok with hsok | hsok
    · have he : restore fs untar_ok strip_ok restore_ok mongo_user mongo_password
          backup_tbz_path backup_directory_output_path host port drop_database true silent
          skip_system_and_user_files =
          ([Effect.untarbz backup_tbz_path backup_directory_output_path,
            Effect.rmtree (backup_directory_output_path ++ "/admin")],
           some .filesystemError) := by
        simp [restore, hfs1, hu, hstrip, hsok]
      rw [he]
      refine ⟨(fun h => nomatch h), fun err _ => ?_⟩
      simp [hadm]
    · rcases Bool.dichotomy (fs backup_directory_output_path) with hfs2 | hfs2
      · have he : restore fs untar_ok strip_ok restore_ok mongo_user mongo_password
            backup_tbz_path backup_directory_output_path host port drop_database true
            silent skip_system_and_user_files =
            ([Effect.untarbz backup_tbz_path backup_directory_output_path,
              Effect.rmtree (backup_directory_output_path ++ "/admin")],
             some (.pyException ("the provided tar directory " ++
               backup_directory_output_path ++ " does not exist."))) := by
          simp [restore, mongorestore, hfs1, hu, hstrip, hsok, hfs2]
        rw [he]
        refine ⟨(fun h => nomatch h), fun err _ => ?_⟩
        simp [hadm]
      · rcases Bool.dichotomy restore_ok with hrok | hrok
        · have he : restore fs untar_ok strip_ok restore_ok mongo_user mongo_password
              backup_tbz_path backup_directory_output_path host port drop_database true
              silent skip_system_and_user_files =
              ([Effect.untarbz backup_tbz_path backup_directory_output_path,
                Effect.rmtree (backup_directory_output_path ++ "/admin"),
                Effect.call (mongorestore_command mongo_user mongo_password
                  backup_directory_output_path host port drop_database silent)],
               some .externalCommandError) := by
            simp [restore, mongorestore, hfs1, hu, hstrip, hsok, hfs2, hrok]
          rw [he]
          refine ⟨(fun h => nomatch h), fun err _ => ?_⟩
          simp [hadm]
        · have he : restore fs untar_ok strip_ok restore_ok mongo_user mongo_password
              backup_tbz_path backup_directory_output_path host port drop_database true
              silent skip_system_and_user_files =
              ([Effect.untarbz backup_tbz_path backup_directory_output_path,
                Effect.rmtree (backup_directory_output_path ++ "/admin"),
                Effect.call (mongorestore_command mongo_user mongo_password
                  backup_directory_output_path host port drop_database silent),
                Effect.rmtree backup_directory_output_path], none) := by
            simp [restore, mongorestore, hfs1, hu, hstrip, hsok, hfs2, hrok]
          rw [he]
          refine ⟨fun _ => ?_, fun err h => nomatch h⟩
          exact ⟨[Effect.untarbz backup_tbz_path backup_directory_output_path,
            Effect.rmtree (backup_directory_output_path ++ "/admin")], by simp⟩

/-- Witness for C7: a fully successful concrete run cleans up the staging
directory last, after the restore command. -/
theorem restore_cleanup_only_after_success_witness :
    ∃ pre, (restore (fun _ => true) true true true "u" "pw" "/b/x.tbz" "/tmp/mongo_dump"
        none none false true false true).1 = pre ++
      [Effect.call (mongorestore_command "u" "pw" "/tmp/mongo_dump" none none false false),
       Effect.rmtree "/tmp/mongo_dump"] :=
  (restore_cleanup_only_after_success (fun _ => true) true true true "u" "pw" "/b/x.tbz"
    "/tmp/mongo_dump" none none false false true).1 rfl

/-- **C4**: with a truthy (non-empty) attached path that does not exist,
`backup` raises the configuration error of lines 68-71 (the spec's
`ConfigurationError`, a plain `Exception` in the source) and performs no
side effect whatsoever: the dump command is never invoked and no
archive/replicate/upload/purge/cleanup effect happens. -/
theorem backup_attached_missing_fail_fast (fs : String → Bool) (ls : String → List String)
    (now : DateTime) (mongo_username mongo_password local_backup_directory_path : String)
    (host port database : Option String) (a : String)
    (custom_pre mongo_backup_directory_path : String)
    (s3_bucket s3_access_key_id s3_secret_key : Option String)
    (purge_local purge_attached : Option Nat) (cleanup silent : Bool)
    (ha : a ≠ "") (hfs : fs a = false) :
    backup fs ls now mongo_username mongo_password local_backup_directory_path
      host port database (some a) custom_pre mongo_backup_directory_path
      s3_bucket s3_access_key_id s3_secret_key purge_local purge_attached cleanup silent
    = ([], some (.pyException ("ERROR.  Would have to create " ++ a ++
        " for your attached storage, make sure that file paths already exist and re-run"))) := by
  have ht : pyTruthyS (some a) = true := by simp [pyTruthyS, ha]
  simp [backup, ht, hfs, optVal]

/-- Witness for C4 at concrete arguments: the run produces the error and
an empty effect trace. -/
theorem backup_attached_missing_fail_fast_witness :
    backup (fun _ => false) (fun _ => []) ⟨2024, 1, 1, 0, 0⟩ "u" "pw" "/b/"
      none none none (some "/mnt/att/") "backup" "/tmp/mongo_dump"
      none none none none none true false
    = ([], some (.pyException ("ERROR.  Would have to create " ++ "/mnt/att/" ++
        " for your attached storage, make sure that file paths already exist and re-run"))) :=
  backup_attached_missing_fail_fast (fun _ => false) (fun _ => []) ⟨2024, 1, 1, 0, 0⟩
    "u" "pw" "/b/" none none none "/mnt/att/" "backup" "/tmp/mongo_dump"
    none none none none none true false (by decide) rfl

/-- **C8** (counterexample): with `local_backup_directory_path = "/b"`
(no trailing separator) the artifact handed to the archiver is
`"/bbackup_2024-01-01_00-00"`, not `"/b/backup_2024-01-01_00-00"`: the
path is plain concatenation, not a separator join, refuting the claim for
directory values without a trailing separator. -/
theorem backup_artifact_name_counterexample :
    Effect.tarbz "/tmp/mongo_dump" "/bbackup_2024-01-01_00-00"
      ∈ (backup (fun _ => true) (fun _ => []) ⟨2024, 1, 1, 0, 0⟩ "u" "pw" "/b"
          none none none none "backup" "/tmp/mongo_dump" none none none none none
          true false).1
    ∧ Effect.tarbz "/tmp/mongo_dump" "/b/backup_2024-01-01_00-00"
      ∉ (backup (fun _ => true) (fun _ => []) ⟨2024, 1, 1, 0, 0⟩ "u" "pw" "/b"
          none none none none "backup" "/tmp/mongo_dump" none none none none none
          true false).1
    ∧ "/b" ++ "backup" ++ time_string ⟨2024, 1, 1, 0, 0⟩
      ≠ "/b" ++ "/" ++ ("backup" ++ time_string ⟨2024, 1, 1, 0, 0⟩) :=
  ⟨by decide, by decide, by decide⟩

/-- **C8** (amended): the artifact path passed to the archiver is the
plain concatenation `local_backup_directory_path + custom_prefix +
time_string()` (backups.py line 74) — no separator is inserted — and it
reads `<localDir>/<prefix><timestamp>` exactly when the configured local
path itself already ends with the separator. -/
theorem backup_artifact_name_concat (fs : String → Bool) (ls : String → List String)
    (now : DateTime) (mongo_username mongo_password local_backup_directory_path : String)
    (host port database attached_directory_path : Option String)
    (custom_pre mongo_backup_directory_path : String)
    (s3_bucket s3_access_key_id s3_secret_key : Option String)
    (purge_local purge_attached : Option Nat) (cleanup silent : Bool)
    (hgate : pyTruthyS attached_directory_path = true →
      fs (optVal attached_directory_path) = true) :
    Effect.tarbz mongo_backup_directory_path
        (local_backup_directory_path ++ custom_pre ++ time_string now)
      ∈ (backup fs ls now mongo_username mongo_password local_backup_directory_path
          host port database attached_directory_path custom_pre
          mongo_backup_directory_path s3_bucket s3_access_key_id s3_secret_key
          purge_local purge_attached cleanup silent).1
    ∧ (∀ dir0 : String, local_backup_directory_path = dir0 ++ "/" →
        local_backup_directory_path ++ custom_pre ++ time_string now
          = dir0 ++ "/" ++ (custom_pre ++ time_string now)) := by
  constructor
  · have hgf : (pyTruthyS attached_directory_path &&
        !(fs (optVal attached_directory_path))) = false := by
      rcases Bool.dichotomy (pyTruthyS attached_directory_path) with hT | hT
      · simp [hT]
      · simp [hT, hgate hT]
    simp only [backup, hgf, Bool.false_eq_true, if_false]
    rcases Bool.dichotomy (pyTruthyN purge_local) with h5 | h5 <;>
      simp only [h5, Bool.false_eq_true, if_false, if_true]
    · rcases Bool.dichotomy (pyTruthyN purge_attached && pyTruthyS attached_directory_path)
        with h6 | h6 <;> simp only [h6, Bool.false_eq_true, if_false, if_true]
      · split_ifs <;> simp
      · rcases hf6 : (purge_old_files (dtSubDays now (purge_attached.getD 0))
            (optVal attached_directory_path) (ls (optVal attached_directory_path))
            custom_pre).fatal with _ | e <;> simp only [hf6] <;> split_ifs <;> simp
    · rcases hf5 : (purge_old_files (dtSubDays now (purge_local.getD 0))
          local_backup_directory_path (ls local_backup_directory_path)
          custom_pre).fatal with _ | e <;> simp only [hf5]
      · rcases Bool.dichotomy (pyTruthyN purge_attached && pyTruthyS attached_directory_path)
          with h6 | h6 <;> simp only [h6, Bool.false_eq_true, if_false, if_true]
        · split_ifs <;> simp
        · rcases hf6 : (purge_old_files (dtSubDays now (purge_attached.getD 0))
              (optVal attached_directory_path) (ls (optVal attached_directory_path))
              custom_pre).fatal with _ | e <;> simp only [hf6] <;> split_ifs <;> simp
      · split_ifs <;> simp
  · intro dir0 h
    rw [h]
    exact String.append_assoc (dir0 ++ "/") custom_pre (time_string now)

/-- Witness for the amended C8: the archive effect of a concrete run and
the separator-form reading for a trailing-slash directory. -/
theorem backup_artifact_name_concat_witness :
    Effect.tarbz "/tmp/mongo_dump" ("/b/" ++ "backup" ++ time_string ⟨2024, 1, 1, 0, 0⟩)
      ∈ (backup (fun _ => true) (fun _ => []) ⟨2024, 1, 1, 0, 0⟩ "u" "pw" "/b/"
          none none none none "backup" "/tmp/mongo_dump" none none none none none
          true false).1
    ∧ (∀ dir0 : String, "/b/" = dir0 ++ "/" →
        "/b/" ++ "backup" ++ time_string ⟨2024, 1, 1, 0, 0⟩
          = dir0 ++ "/" ++ ("backup" ++ time_string ⟨2024, 1, 1, 0, 0⟩)) :=
  backup_artifact_name_concat (fun _ => true) (fun _ => []) ⟨2024, 1, 1, 0, 0⟩
    "u" "pw" "/b/" none none none none "backup" "/tmp/mongo_dump" none none none
    none none true false (fun h => by cases h)

/-- **C10**: an empty-string attached path behaves exactly as an absent
one: the truthiness gates (lines 67, 79, 90) make the existence check,
the replication copy, and the attached purge all skip, even when
`purge_attached` is set — the two runs are identical. -/
theorem backup_empty_attached_like_none (fs : String → Bool) (ls : String → List String)
    (now : DateTime) (mongo_username mongo_password local_backup_directory_path : String)
    (host port database : Option String)
    (custom_pre mongo_backup_directory_path : String)
    (s3_bucket s3_access_key_id s3_secret_key : Option String)
    (purge_local purge_attached : Option Nat) (cleanup silent : Bool) :
    backup fs ls now mongo_username mongo_password local_backup_directory_path
      host port database (some "") custom_pre mongo_backup_directory_path
      s3_bucket s3_access_key_id s3_secret_key purge_local purge_attached cleanup silent
    = backup fs ls now mongo_username mongo_password local_backup_directory_path
      host port database none custom_pre mongo_backup_directory_path
      s3_bucket s3_access_key_id s3_secret_key purge_local purge_attached cleanup silent := by
  have h1 : pyTruthyS (some "") = false := by decide
  have h2 : pyTruthyS none = false := rfl
  simp only [backup, h1, h2, Bool.false_and, Bool.and_false, Bool.false_eq_true, if_false]
